import Mathlib

/-!
Verification of the ScrapeMaster scraping pipeline (src/app.py,
src/data_cleaning.py, src/database.py) against its design document.

The Python sources are shallowly embedded below.  Pure string functions
become Lean functions on `String` / `List Char`; the statistics store and
the media-cache filesystem become explicit state records; fallible
library calls (`urllib.parse.urlparse`, which can raise `ValueError`)
return `Option`.  Where the code relies on CPython library routines
(`urllib.parse`, `html.unescape`, `str.split`, `os.path.splitext`,
`hashlib.md5`) those routines are translated here as well, following the
CPython 3.11 implementations; character-level operations are modelled for
ASCII data (the repository feeds them ASCII URLs and HTML text), and
`html.unescape` carries the named-entity table restricted to the common
entities (the full HTML5 table has ~2000 names; only the structure of the
scanner matters for the properties proved here).
-/

namespace ScrapeMaster

/-! ## Python string primitives -/

/-- Python `str` whitespace test, restricted to ASCII:
space, tab, newline, carriage return, vertical tab, form feed. -/
def isPySpace (c : Char) : Bool :=
  c = ' ' || c = '\t' || c = '\n' || c = '\r' || c = '\x0b' || c = '\x0c'

/-- ASCII lower-casing of one character (Python `str.lower` on ASCII). -/
def pyLowerChar (c : Char) : Char := c.toLower

/-- Python `str.lower`, ASCII fragment. -/
def pyLower (s : String) : String := ⟨s.data.map pyLowerChar⟩

/-- Python `str.strip()` with no argument (trim whitespace at both ends). -/
def pyStrip (s : String) : String :=
  ⟨((s.data.dropWhile isPySpace).reverse.dropWhile isPySpace).reverse⟩

/-- One step of Python `str.split()`: `foldr` accumulator collecting
maximal runs of non-whitespace characters. -/
def splitWsStep (c : Char) (ws : List (List Char)) : List (List Char) :=
  if isPySpace c then [] :: ws
  else
    match ws with
    | [] => [[c]]
    | w :: rest => (c :: w) :: rest

/-- Python `str.split()` with no argument: split on whitespace runs,
discarding empty fields. -/
def pySplitWs (s : String) : List (List Char) :=
  (s.data.foldr splitWsStep []).filter (· ≠ [])

/-- Python `' '.join(s.split())` — collapse internal whitespace runs to a
single space and drop the ends. -/
def collapseWs (s : String) : String :=
  ⟨List.intercalate [' '] (pySplitWs s)⟩

/-- `needle` occurs as a contiguous run inside `hay`. -/
def listIsSub (needle : List Char) : List Char → Bool
  | [] => needle.isEmpty
  | c :: t => needle.isPrefixOf (c :: t) || listIsSub needle t

/-- Python substring test `needle in hay`. -/
def strContains (hay needle : String) : Bool :=
  listIsSub needle.data hay.data

/-- Python `str.startswith` on one prefix. -/
def pyStartsWith (s pre : String) : Bool :=
  pre.data.isPrefixOf s.data

/-- Python `str.endswith` on one suffix. -/
def pyEndsWith (s suf : String) : Bool :=
  suf.data.isSuffixOf s.data

/-- Python `str.rstrip('/')`: drop every trailing `'/'`. -/
def rstripSlash (s : String) : String :=
  ⟨((s.data.reverse.dropWhile (· = '/'))).reverse⟩

/-! ## `urllib.parse.urlparse`, CPython 3.11

`urlsplit` pre-processing: strip leading C0-control-or-space characters,
remove every tab/CR/LF, then split off scheme, authority, fragment and
query in that order.  `urlparse` additionally splits `;parameters` off
the path for schemes that use them.  A malformed bracketed authority
raises `ValueError`, modelled as `none`; the point-release validation of
the text inside balanced brackets is not modelled (no repository input
contains brackets). -/

/-- WHATWG C0-control-or-space class used by `urlsplit` to strip the
left end of the URL. -/
def isC0OrSpace (c : Char) : Bool := c.toNat ≤ 32

/-- The three byte values `urlsplit` removes anywhere in the URL. -/
def isUnsafeUrlByte (c : Char) : Bool := c = '\t' || c = '\r' || c = '\n'

/-- `urlsplit` input sanitisation. -/
def urlSanitize (s : String) : List Char :=
  (s.data.dropWhile isC0OrSpace).filter (fun c => !isUnsafeUrlByte c)

/-- Characters allowed in a scheme after the leading letter. -/
def isSchemeChar (c : Char) : Bool :=
  c.isAlpha || c.isDigit || c = '+' || c = '-' || c = '.'

/-- Scheme recognition of `urlsplit`: a leading ASCII letter, scheme
characters up to the first `':'`.  Returns the (lower-cased) scheme and
the rest of the URL. -/
def splitScheme (l : List Char) : List Char × List Char :=
  match l.findIdx? (· = ':') with
  | some i =>
    if 0 < i ∧ (l.take 1).all Char.isAlpha ∧ (l.take i).all isSchemeChar then
      ((l.take i).map pyLowerChar, l.drop (i + 1))
    else ([], l)
  | none => ([], l)

/-- `_splitnetloc`: the authority runs to the first `'/'`, `'?'` or
`'#'`. -/
def netlocEnd (c : Char) : Bool := c = '/' || c = '?' || c = '#'

/-- Split a list at the first occurrence of `c`, dropping `c` itself;
`none` when `c` does not occur. -/
def splitOnFirst (c : Char) (l : List Char) : Option (List Char × List Char) :=
  match l.findIdx? (· = c) with
  | some i => some (l.take i, l.drop (i + 1))
  | none => none

/-- `url.split(c, 1)` guarded by `if c in url` — the whole list with an
empty second half when `c` does not occur. -/
def splitOnFirstD (c : Char) (l : List Char) : List Char × List Char :=
  match splitOnFirst c l with
  | some p => p
  | none => (l, [])

/-- Result record of `urllib.parse.urlparse`. -/
structure UrlParseResult where
  scheme : String
  netloc : String
  path : String
  parameters : String
  query : String
  fragment : String
deriving Repr, DecidableEq

/-- `urllib.parse.urlsplit` (3.11): `none` models the `ValueError`
raised for an authority containing `'['` without `']'` or vice versa. -/
def py_urlsplit (url : String) : Option UrlParseResult :=
  let l0 := urlSanitize url
  let sr := splitScheme l0
  let scheme := sr.1
  let l1 := sr.2
  let nr : List Char × List Char :=
    if l1.take 2 = ['/', '/'] then
      ((l1.drop 2).takeWhile (fun c => !netlocEnd c),
       (l1.drop 2).dropWhile (fun c => !netlocEnd c))
    else ([], l1)
  let netloc := nr.1
  let l2 := nr.2
  if ('[' ∈ netloc ∧ ']' ∉ netloc) ∨ (']' ∈ netloc ∧ '[' ∉ netloc) then
    none
  else
    let fr := splitOnFirstD '#' l2
    let qr := splitOnFirstD '?' fr.1
    some ⟨⟨scheme⟩, ⟨netloc⟩, ⟨qr.1⟩, "", ⟨qr.2⟩, ⟨fr.2⟩⟩

/-- The schemes for which `urlparse` splits `;parameters` off the last
path segment (CPython `uses_params`). -/
def usesParamsList : List String :=
  ["", "ftp", "hdl", "prospero", "http", "imap", "https", "shttp",
   "rtsp", "rtsps", "rtspu", "sip", "sips", "mms", "sftp", "tel"]

/-- Index of the last `'/'` in `l`, as Python `str.rfind` (0 when
absent, which is how `_splitparams` uses it). -/
def rfindSlash (l : List Char) : Nat :=
  match (l.reverse.findIdx? (· = '/')) with
  | some j => l.length - 1 - j
  | none => 0

/-- CPython `_splitparams`: split the path at the first `';'` that
follows the last `'/'`. -/
def splitPathParams (l : List Char) : List Char × List Char :=
  let start := if '/' ∈ l then rfindSlash l else 0
  match (l.drop start).findIdx? (· = ';') with
  | some j => (l.take (start + j), l.drop (start + j + 1))
  | none => (l, [])

/-- `urllib.parse.urlparse` (3.11). -/
def py_urlparse (url : String) : Option UrlParseResult :=
  match py_urlsplit url with
  | none => none
  | some r =>
    if r.scheme ∈ usesParamsList ∧ ';' ∈ r.path.data then
      let pr := splitPathParams r.path.data
      some { r with path := ⟨pr.1⟩, parameters := ⟨pr.2⟩ }
    else
      some r

/-! ## `data_cleaning.py` — `DataCleaner` -/

/-- Named character references recognised by the modelled
`html.unescape` (common-entity subset of the HTML5 table). -/
def namedEntities : List (String × Char) :=
  [("amp", '&'), ("lt", '<'), ("gt", '>'), ("quot", '\"'), ("nbsp", ' ')]

/-- Digit string to number (for `&#NNN;` references). -/
def digitsToNat (l : List Char) : Nat :=
  l.foldl (fun a c => a * 10 + (c.toNat - 48)) 0

/-- Try to read one character reference at the text following a `'&'`;
returns the replacement character and how many characters it consumed. -/
def matchEntity (l : List Char) : Option (Char × Nat) :=
  match l with
  | '#' :: rest =>
    let ds := rest.takeWhile Char.isDigit
    if ds ≠ [] ∧ (rest.drop ds.length).head? = some ';' ∧ digitsToNat ds < 1114112 then
      some (Char.ofNat (digitsToNat ds), ds.length + 2)
    else none
  | _ =>
    (namedEntities.find? (fun e => (e.1.data ++ [';']).isPrefixOf l)).map
      (fun e => (e.2, e.1.length + 1))

/-- Recursion core of the `html.unescape` scanner; every step consumes
at least one input character, so fuel equal to the input length makes
the fuel bound unreachable. -/
def pyUnescapeAux : Nat → List Char → List Char
  | 0, l => l
  | fuel + 1, l =>
    match l with
    | [] => []
    | c :: rest =>
      if c = '&' then
        match matchEntity rest with
        | some (r, k) => r :: pyUnescapeAux fuel (rest.drop k)
        | none => c :: pyUnescapeAux fuel rest
      else c :: pyUnescapeAux fuel rest

/-- `html.unescape` as a left-to-right scanner: each `&name;` or
`&#NNN;` becomes its character, everything else is copied. -/
def pyUnescapeList (l : List Char) : List Char :=
  pyUnescapeAux l.length l

/-- ASCII model of the regex class `\w` (`[a-zA-Z0-9_]`). -/
def isWordChar (c : Char) : Bool := c.isAlpha || c.isDigit || c = '_'

/-- ASCII hexadecimal digit. -/
def isHexDigitCh (c : Char) : Bool :=
  c.isDigit || (97 ≤ c.toNat ∧ c.toNat ≤ 102) || (65 ≤ c.toNat ∧ c.toNat ≤ 70)

/-- One character of the URL-removal regex body
`[a-zA-Z]|[0-9]|[$-_@.&+]|[!*\\(),]` (the `$-_` range is `0x24`–`0x5F`). -/
def isUrlBodyChar (c : Char) : Bool :=
  c.isAlpha || c.isDigit || (36 ≤ c.toNat ∧ c.toNat ≤ 95) || c = '@' || c = '.' ||
  c = '&' || c = '+' || c = '!' || c = '*' || c = '\\' || c = '(' || c = ')' || c = ','

/-- Greedy consumption of the URL-removal regex body, counting consumed
characters; the `%hh` alternative mirrors the regex even though `%`
already falls inside the `$-_` range. -/
def consumeUrlBody : List Char → Nat
  | [] => 0
  | c :: rest =>
    if isUrlBodyChar c then 1 + consumeUrlBody rest
    else if c = '%' then
      match rest with
      | a :: b :: rest2 =>
        if isHexDigitCh a ∧ isHexDigitCh b then 3 + consumeUrlBody rest2 else 0
      | _ => 0
    else 0

/-- Length of a `http[s]?://(body)+` match starting at the head of `l`,
`none` when the head does not start a match. -/
def matchUrlLen (l : List Char) : Option Nat :=
  if "https://".data.isPrefixOf l then
    let b := consumeUrlBody (l.drop 8)
    if b = 0 then none else some (8 + b)
  else if "http://".data.isPrefixOf l then
    let b := consumeUrlBody (l.drop 7)
    if b = 0 then none else some (7 + b)
  else none

/-- Recursion core of the URL-removal scan (fuel as in
`pyUnescapeAux`). -/
def removeUrlsAux : Nat → List Char → List Char
  | 0, l => l
  | _ + 1, [] => []
  | fuel + 1, c :: rest =>
    match matchUrlLen (c :: rest) with
    | some k => removeUrlsAux fuel (rest.drop (k - 1))
    | none => c :: removeUrlsAux fuel rest

/-- `re.sub(url_pattern, '', text)`: delete every match, scanning left
to right. -/
def removeUrlsList (l : List Char) : List Char :=
  removeUrlsAux l.length l

/-- Option record of `DataCleaner.clean_text`, with the `setdefault`
values of the source. -/
structure CleanTextOpts where
  strip_whitespace : Bool := true
  decode_html : Bool := true
  remove_newlines : Bool := false
  lowercase : Bool := false
  remove_punctuation : Bool := false
  remove_urls : Bool := false
  remove_numbers : Bool := false
deriving Repr, DecidableEq

/-- `DataCleaner.clean_text`: the transformation steps in source order —
entity decoding, URL removal, newline flattening, whitespace collapsing,
lower-casing, punctuation removal, digit removal — each gated by its
option flag. -/
def clean_text (text : String) (options : CleanTextOpts) : String :=
  if text = "" then ""
  else
    let c1 := if options.decode_html then String.mk (pyUnescapeList text.data) else text
    let c2 := if options.remove_urls then String.mk (removeUrlsList c1.data) else c1
    let c3 := if options.remove_newlines then
                String.mk (c2.data.map (fun c => if c = '\n' ∨ c = '\r' then ' ' else c))
              else c2
    let c4 := if options.strip_whitespace then pyStrip (collapseWs c3) else c3
    let c5 := if options.lowercase then pyLower c4 else c4
    let c6 := if options.remove_punctuation then
                String.mk (c5.data.filter (fun c => isWordChar c || isPySpace c))
              else c5
    if options.remove_numbers then String.mk (c6.data.filter (fun c => !c.isDigit)) else c6

/-- Option record of `DataCleaner.clean_url`, with the `setdefault`
values of the source. -/
structure CleanUrlOpts where
  remove_params : Bool := false
  remove_fragment : Bool := true
  lowercase : Bool := true
  remove_trailing_slash : Bool := true
deriving Repr, DecidableEq

/-- `DataCleaner.clean_url`: parse the URL, lower-case the authority
when configured, strip trailing slashes from a long-enough path, and
rebuild from scheme, authority, path and (depending on the option
combination) query or fragment.  A parse error returns the input
unchanged (the source catches the exception). -/
def clean_url (url : String) (options : CleanUrlOpts) : String :=
  if url = "" then ""
  else
    match py_urlparse url with
    | none => url
    | some parsed =>
      let scheme := parsed.scheme
      let netloc := if options.lowercase then pyLower parsed.netloc else parsed.netloc
      let path :=
        if options.remove_trailing_slash ∧ pyEndsWith parsed.path "/" ∧ 1 < parsed.path.length
        then rstripSlash parsed.path
        else parsed.path
      if options.remove_params ∧ options.remove_fragment then
        scheme ++ "://" ++ netloc ++ path
      else if options.remove_params then
        scheme ++ "://" ++ netloc ++ path ++ "#" ++ parsed.fragment
      else if options.remove_fragment then
        let query := if parsed.query ≠ "" then "?" ++ parsed.query else ""
        scheme ++ "://" ++ netloc ++ path ++ query
      else url

/-- `DataCleaner.validate_data`: empty data is invalid; `Text` requires
a stripped length of at least 3; `Links` requires scheme and authority;
`Images`/`Videos` accept a leading `/` or require scheme and authority;
any other type is accepted.  A parse error yields `false` (caught
exception). -/
def validate_data (data : String) (data_type : String) : Bool :=
  if data = "" then false
  else if data_type = "Text" then
    3 ≤ (pyStrip data).length
  else if data_type = "Links" then
    match py_urlparse data with
    | none => false
    | some p => p.scheme ≠ "" ∧ p.netloc ≠ ""
  else if data_type = "Images" then
    if pyStartsWith data "/" then true
    else
      match py_urlparse data with
      | none => false
      | some p => p.scheme ≠ "" ∧ p.netloc ≠ ""
  else if data_type = "Videos" then
    if pyStartsWith data "/" then true
    else
      match py_urlparse data with
      | none => false
      | some p => p.scheme ≠ "" ∧ p.netloc ≠ ""
  else true

/-- Order-preserving de-duplication keyed by `key` (the source writes
the `case_sensitive` and case-insensitive loops separately; both are
this loop with `key` the identity or `str.lower`, and both append the
original item, not the key). -/
def removeDupsAux (key : String → String) (seen : List String) : List String → List String
  | [] => []
  | x :: rest =>
    if key x ∈ seen then removeDupsAux key seen rest
    else x :: removeDupsAux key (key x :: seen) rest

/-- `DataCleaner.remove_duplicates`. -/
def remove_duplicates (data_list : List String) (case_sensitive : Bool) : List String :=
  if case_sensitive then removeDupsAux id [] data_list
  else removeDupsAux pyLower [] data_list

/-- Python truthiness of the optional numeric bound (`None` and `0` are
falsy, so a `0` bound imposes no constraint, exactly as in the source). -/
def optNatTruthy : Option Nat → Bool
  | none => false
  | some n => n ≠ 0

/-- `DataCleaner.filter_by_length`. -/
def filter_by_length (data_list : List String)
    (min_length : Option Nat) (max_length : Option Nat) : List String :=
  data_list.filter fun item =>
    if optNatTruthy min_length ∧ item.length < min_length.getD 0 then false
    else if optNatTruthy max_length ∧ max_length.getD 0 < item.length then false
    else true

/-! ## `data_cleaning.py` — `DataCleaningPipeline`

A pipeline is the ordered list of its steps; `filter_by_pattern`
(regex-based, used by no default pipeline and no claim) is not
modelled. -/

/-- One registered cleaning step with its options. -/
inductive CleanStep where
  | cleanTextStep (options : CleanTextOpts)
  | cleanUrlStep (options : CleanUrlOpts)
  | validateStep
  | removeDuplicatesStep (case_sensitive : Bool)
  | filterByLengthStep (min_length max_length : Option Nat)
deriving Repr, DecidableEq

/-- Dispatch of one step inside `DataCleaningPipeline.clean`, including
the data-type gating of `clean_text` and `clean_url`. -/
def applyStep (data_type : String) (data : List String) : CleanStep → List String
  | .cleanTextStep o =>
    if data_type = "Text" then data.map (fun i => clean_text i o) else data
  | .cleanUrlStep o =>
    if data_type = "Links" ∨ data_type = "Images" ∨ data_type = "Videos" then
      data.map (fun i => clean_url i o)
    else data
  | .validateStep => data.filter (fun i => validate_data i data_type)
  | .removeDuplicatesStep cs => remove_duplicates data cs
  | .filterByLengthStep mn mx => filter_by_length data mn mx

/-- `DataCleaningPipeline.clean`: apply the steps in registration
order. -/
def pipeline_clean (steps : List CleanStep) (data_list : List String)
    (data_type : String) : List String :=
  steps.foldl (applyStep data_type) data_list

/-- `create_default_pipeline`. -/
def create_default_pipeline (data_type : String) : List CleanStep :=
  if data_type = "Text" then
    [.cleanTextStep { strip_whitespace := true, decode_html := true, remove_newlines := false },
     .filterByLengthStep (some 3) none,
     .validateStep,
     .removeDuplicatesStep false]
  else if data_type = "Links" ∨ data_type = "Images" ∨ data_type = "Videos" then
    [.cleanUrlStep { remove_fragment := true, lowercase := true, remove_trailing_slash := true },
     .validateStep,
     .removeDuplicatesStep false]
  else []

/-! ## `hashlib.md5` (RFC 1321), over byte lists

`app.py` derives media-cache filenames from
`hashlib.md5(url.encode()).hexdigest()`.  The full MD5 compression is
implemented here on `Nat` with explicit `% 2^32` truncation; strings are
taken as their ASCII bytes (every URL the repository hashes is ASCII). -/

/-- Truncate to 32 bits. -/
def w32 (n : Nat) : Nat := n % 4294967296

/-- All-ones 32-bit word, for bitwise complement. -/
def mask32 : Nat := 4294967295

/-- 32-bit left rotation (argument already below `2^32`). -/
def rotl32 (x s : Nat) : Nat := w32 (x <<< s) ||| (x >>> (32 - s))

/-- The 64 MD5 sine-table constants. -/
def md5K : List Nat :=
  [0xd76aa478, 0xe8c7b756, 0x242070db, 0xc1bdceee,
   0xf57c0faf, 0x4787c62a, 0xa8304613, 0xfd469501,
   0x698098d8, 0x8b44f7af, 0xffff5bb1, 0x895cd7be,
   0x6b901122, 0xfd987193, 0xa679438e, 0x49b40821,
   0xf61e2562, 0xc040b340, 0x265e5a51, 0xe9b6c7aa,
   0xd62f105d, 0x02441453, 0xd8a1e681, 0xe7d3fbc8,
   0x21e1cde6, 0xc33707d6, 0xf4d50d87, 0x455a14ed,
   0xa9e3e905, 0xfcefa3f8, 0x676f02d9, 0x8d2a4c8a,
   0xfffa3942, 0x8771f681, 0x6d9d6122, 0xfde5380c,
   0xa4beea44, 0x4bdecfa9, 0xf6bb4b60, 0xbebfbc70,
   0x289b7ec6, 0xeaa127fa, 0xd4ef3085, 0x04881d05,
   0xd9d4d039, 0xe6db99e5, 0x1fa27cf8, 0xc4ac5665,
   0xf4292244, 0x432aff97, 0xab9423a7, 0xfc93a039,
   0x655b59c3, 0x8f0ccc92, 0xffeff47d, 0x85845dd1,
   0x6fa87e4f, 0xfe2ce6e0, 0xa3014314, 0x4e0811a1,
   0xf7537e82, 0xbd3af235, 0x2ad7d2bb, 0xeb86d391]

/-- The 64 MD5 per-round shift amounts. -/
def md5S : List Nat :=
  [7, 12, 17, 22, 7, 12, 17, 22, 7, 12, 17, 22, 7, 12, 17, 22,
   5, 9, 14, 20, 5, 9, 14, 20, 5, 9, 14, 20, 5, 9, 14, 20,
   4, 11, 16, 23, 4, 11, 16, 23, 4, 11, 16, 23, 4, 11, 16, 23,
   6, 10, 15, 21, 6, 10, 15, 21, 6, 10, 15, 21, 6, 10, 15, 21]

/-- A number as `k` little-endian bytes. -/
def toLEBytes (k n : Nat) : List Nat :=
  (List.range k).map (fun i => (n >>> (8 * i)) % 256)

/-- MD5 padding: `0x80`, zeros to 56 mod 64, then the bit length as 8
little-endian bytes. -/
def md5pad (msg : List Nat) : List Nat :=
  msg ++ [128] ++ List.replicate ((119 - msg.length % 64) % 64) 0
      ++ toLEBytes 8 (8 * msg.length)

/-- Recursion core of the block split; each step consumes at least one
byte, so fuel equal to the input length suffices. -/
def chunks64Aux : Nat → List Nat → List (List Nat)
  | 0, _ => []
  | fuel + 1, l =>
    if l = [] then [] else l.take 64 :: chunks64Aux fuel (l.drop 64)

/-- Split a byte list into 64-byte blocks. -/
def chunks64 (l : List Nat) : List (List Nat) :=
  chunks64Aux l.length l

/-- Little-endian 32-bit word `g` of a 64-byte block. -/
def leWord (block : List Nat) (g : Nat) : Nat :=
  block.getD (4 * g) 0 + 256 * block.getD (4 * g + 1) 0 +
  65536 * block.getD (4 * g + 2) 0 + 16777216 * block.getD (4 * g + 3) 0

/-- One MD5 round on the running state `(a, b, c, d)`. -/
def md5round (block : List Nat) (st : Nat × Nat × Nat × Nat) (i : Nat) :
    Nat × Nat × Nat × Nat :=
  let a := st.1
  let b := st.2.1
  let c := st.2.2.1
  let d := st.2.2.2
  let f :=
    if i < 16 then (b &&& c) ||| ((mask32 ^^^ b) &&& d)
    else if i < 32 then (d &&& b) ||| ((mask32 ^^^ d) &&& c)
    else if i < 48 then b ^^^ c ^^^ d
    else c ^^^ (b ||| (mask32 ^^^ d))
  let g :=
    if i < 16 then i
    else if i < 32 then (5 * i + 1) % 16
    else if i < 48 then (3 * i + 5) % 16
    else (7 * i) % 16
  let tmp := w32 (f + a + md5K.getD i 0 + leWord block g)
  (d, w32 (b + rotl32 tmp (md5S.getD i 0)), b, c)

/-- MD5 compression of one block into the chaining state. -/
def md5block (st : Nat × Nat × Nat × Nat) (block : List Nat) :
    Nat × Nat × Nat × Nat :=
  let r := (List.range 64).foldl (md5round block) st
  (w32 (st.1 + r.1), w32 (st.2.1 + r.2.1), w32 (st.2.2.1 + r.2.2.1),
   w32 (st.2.2.2 + r.2.2.2))

/-- MD5 digest of a byte list, as 16 bytes. -/
def md5bytes (msg : List Nat) : List Nat :=
  let st := (chunks64 (md5pad msg)).foldl md5block
    (0x67452301, 0xefcdab89, 0x98badcfe, 0x10325476)
  toLEBytes 4 st.1 ++ toLEBytes 4 st.2.1 ++ toLEBytes 4 st.2.2.1 ++ toLEBytes 4 st.2.2.2

/-- Lower-case hexadecimal digit. -/
def hexChar (n : Nat) : Char :=
  if n < 10 then Char.ofNat (48 + n) else Char.ofNat (87 + n)

/-- `hashlib.md5(s.encode()).hexdigest()` for ASCII `s`. -/
def md5hex (s : String) : String :=
  ⟨(md5bytes (s.data.map Char.toNat)).foldr
    (fun b acc => hexChar (b / 16) :: hexChar (b % 16) :: acc) []⟩

/-! ## `app.py` — URL validation and the media cache -/

/-- `validate_url`: accept only `http`/`https` with an authority; a
parse error is caught and rejected. -/
def validate_url (url : String) : Bool :=
  match py_urlparse url with
  | none => false
  | some r => (r.scheme = "http" ∨ r.scheme = "https") ∧ r.netloc ≠ ""

/-- `os.path.splitext` extension of a path whose basename is `l`
(empty for no dot or an all-dots prefix). -/
def splitextExtOfBase (basename : List Char) : String :=
  match basename.reverse.findIdx? (· = '.') with
  | none => ""
  | some j =>
    let dotIdx := basename.length - 1 - j
    if (basename.take dotIdx).any (· ≠ '.') then ⟨basename.drop dotIdx⟩ else ""

/-- `os.path.splitext(p)[1]` (POSIX flavour). -/
def splitextExt (p : String) : String :=
  let l := p.data
  match l.reverse.findIdx? (· = '/') with
  | some j => splitextExtOfBase (l.drop (l.length - j))
  | none => splitextExtOfBase l

/-- `os.path.splitext(urlparse(url).path)[1] or dflt`. -/
def urlPathExt (url : String) (dflt : String) : String :=
  match py_urlparse url with
  | some p => let e := splitextExt p.path; if e = "" then dflt else e
  | none => dflt

/-- The cache filename `download_image` derives before any network
activity: the MD5 of the URL string plus the URL path's extension
(default `.jpg`).  The downloaded bytes play no part. -/
def imageFilename (img_url : String) : String :=
  md5hex img_url ++ urlPathExt img_url ".jpg"

/-- As `imageFilename`, with default extension `.mp4`. -/
def videoFilename (video_url : String) : String :=
  md5hex video_url ++ urlPathExt video_url ".mp4"

/-- One regular file of a media directory. -/
structure FileEntry where
  name : String
  size : Nat
  ctime : Nat
deriving Repr, DecidableEq

/-- State of one media directory plus a count of network downloads
performed and a clock supplying creation times. -/
structure MediaState where
  files : List FileEntry
  downloads : Nat
  clock : Nat
deriving Repr, DecidableEq

/-- `MAX_STORAGE_SIZE` (500 MB). -/
def MAX_STORAGE_SIZE : Nat := 500 * 1024 * 1024

/-- `get_folder_size`: total size of the regular files. -/
def get_folder_size (files : List FileEntry) : Nat :=
  (files.map (·.size)).sum

/-- First file with minimal creation time (what
`files.sort(key=os.path.getctime); files[0]` selects, ties resolved to
the earlier listing as by a stable sort). -/
def oldestEntry : List FileEntry → Option FileEntry
  | [] => none
  | f :: rest =>
    match oldestEntry rest with
    | none => some f
    | some g => if f.ctime ≤ g.ctime then some f else some g

/-- Recursion core of the eviction loop; each pass deletes one file, so
fuel equal to the file count bounds the loop exactly as the emptiness
check of the source does. -/
def cleanStorageAux : Nat → List FileEntry → List FileEntry
  | 0, files => files
  | fuel + 1, files =>
    if MAX_STORAGE_SIZE < get_folder_size files then
      match oldestEntry files with
      | none => files
      | some f => cleanStorageAux fuel (files.erase f)
    else files

/-- `clean_storage`: while the directory exceeds the budget, delete the
oldest file; stop when the directory is empty. -/
def clean_storage (files : List FileEntry) : List FileEntry :=
  cleanStorageAux files.length files

/-- Outcome of `requests.get` followed by `raise_for_status`: a raised
exception, or a response with its `content-type` header and body. -/
inductive HttpResp where
  | err
  | ok (content_type : String) (body : List Nat)
deriving Repr, DecidableEq

/-- `download_image` (called without a `base_url`, as the pipeline does
for already-normalized URLs): reject empty or invalid URLs; return the
cached reference without touching the network when the derived filename
already exists; otherwise download, reject non-`image` content types,
write the file, evict, and return the local reference.  Every raised
exception maps to `none` with no file written. -/
def download_image (img_url : String) (resp : HttpResp) (s : MediaState) :
    Option String × MediaState :=
  if img_url = "" then (none, s)
  else if ¬ validate_url img_url then (none, s)
  else
    let filename := imageFilename img_url
    if s.files.any (fun f => f.name = filename) then
      (some ("/static/images/" ++ filename), s)
    else
      let s1 : MediaState := { s with downloads := s.downloads + 1 }
      match resp with
      | .err => (none, s1)
      | .ok ct body =>
        if ¬ strContains ct "image" then (none, s1)
        else
          let s2 : MediaState :=
            { s1 with
              files := clean_storage (s1.files ++ [⟨filename, body.length, s1.clock⟩]),
              clock := s1.clock + 1 }
          (some ("/static/images/" ++ filename), s2)

/-- The streaming-platform domains whose URLs bypass downloading. -/
def embeddedDomains : List String := ["youtube.com", "youtu.be", "vimeo.com"]

/-- `any(domain in video_url for domain in [...])`. -/
def isEmbeddedVideo (video_url : String) : Bool :=
  embeddedDomains.any (fun d => strContains video_url d)

/-- `download_video` (no `base_url`): as `download_image` with the
video directory, `.mp4` default extension and `video` content-type
family, except that embedded-platform URLs are returned unchanged
before the cache is consulted. -/
def download_video (video_url : String) (resp : HttpResp) (s : MediaState) :
    Option String × MediaState :=
  if video_url = "" then (none, s)
  else if ¬ validate_url video_url then (none, s)
  else if isEmbeddedVideo video_url then (some video_url, s)
  else
    let filename := videoFilename video_url
    if s.files.any (fun f => f.name = filename) then
      (some ("/static/videos/" ++ filename), s)
    else
      let s1 : MediaState := { s with downloads := s.downloads + 1 }
      match resp with
      | .err => (none, s1)
      | .ok ct body =>
        if ¬ strContains ct "video" then (none, s1)
        else
          let s2 : MediaState :=
            { s1 with
              files := clean_storage (s1.files ++ [⟨filename, body.length, s1.clock⟩]),
              clock := s1.clock + 1 }
          (some ("/static/videos/" ++ filename), s2)

/-! ## `database.py` — the statistics contract, and `app.py` —
`scrape_website`

`scrape_website` is modelled as a function of the run parameters and an
environment describing what the outside world would return: the outcome
of the direct `requests` fetch, the outcome of the Selenium fallback,
and — because media downloads and `urljoin` normalisation happen per
element against that environment — the per-element data value each found
element produces in the extraction loop (`none` for an element whose
value is empty or fails to normalize, which the loop skips).  The
observable output is the returned item list, the rows handed to
`database.save_scraping_stats` (the `finally` block), and how many times
each fetch tier ran.  CSV and `save_scraping_results` failures are
swallowed by the source and alter nothing observed here; `execution_time`
is wall-clock and not modelled. -/

/-- A row of the `scraping_stats` table as built by
`database.save_scraping_stats`. -/
structure StatsRow where
  job_id : Option Nat
  url : String
  data_type : String
  items_scraped : Nat
  items_cleaned : Nat
  success : Bool
  error_message : Option String
deriving Repr, DecidableEq

/-- `database.save_scraping_stats`: the row the insert writes. -/
def save_scraping_stats (url : String) (data_type : String)
    (items_scraped items_cleaned : Nat) (success : Bool)
    (error_message : Option String) (job_id : Option Nat) : StatsRow :=
  ⟨job_id, url, data_type, items_scraped, items_cleaned, success, error_message⟩

/-- A parsed document: its Python truthiness (an empty `BeautifulSoup`
is falsy) and the per-element data values of the extraction loop. -/
structure Soup where
  truthy : Bool
  elements : List (Option String)
deriving Repr, DecidableEq

/-- The run's outside world: each fetch tier either returns a document
or raises (carrying `str(e)`). -/
structure ScrapeEnv where
  direct : Except String Soup
  selenium : Except String Soup
deriving Repr

/-- An entry of the list `scrape_website` returns. -/
structure ScrapeItem where
  type : String
  content : String
deriving Repr, DecidableEq

/-- Observable outcome of one `scrape_website` run. -/
structure ScrapeResult where
  items : List ScrapeItem
  stats : List StatsRow
  direct_calls : Nat
  selenium_calls : Nat
deriving Repr, DecidableEq

/-- The keyword filter of the extraction loop: with a (truthy) keyword,
keep a value iff the lower-cased keyword occurs in its lower-cased
string form; with no keyword keep everything. -/
def keywordKeep (keyword : String) (data : String) : Bool :=
  if keyword = "" then true
  else strContains (pyLower data) (pyLower keyword)

/-- The extraction loop over the found elements: skip skipped elements,
apply the keyword filter, keep document order. -/
def extractItems (keyword : String) (elements : List (Option String)) : List String :=
  elements.filterMap fun e =>
    e.bind fun d => if keywordKeep keyword d then some d else none

/-- The four data kinds the extraction dispatch accepts. -/
def knownDataType (data_type : String) : Bool :=
  data_type = "Text" ∨ data_type = "Links" ∨ data_type = "Images" ∨ data_type = "Videos"

/-- Continuation of `scrape_website` once a document tree is in hand
(`dc`/`sc` are the tier invocation counts so far): the falsy-soup check,
the data-kind dispatch, extraction, cleaning, and on the way out the one
statistics row of the `finally` block, whose `success`/`error_message`
and item counts are exactly those live on each return path. -/
def scrapeWithSoup (url data_type keyword : String) (apply_cleaning : Bool)
    (job_id : Option Nat) (soup : Soup) (dc sc : Nat) : ScrapeResult :=
  if ¬ soup.truthy then
    { items := [⟨"error", "Failed to parse website"⟩],
      stats := [save_scraping_stats url data_type 0 0 false
                  (some "Failed to parse website") job_id],
      direct_calls := dc, selenium_calls := sc }
  else if ¬ knownDataType data_type then
    { items := [⟨"error", "Invalid Data Type"⟩],
      stats := [save_scraping_stats url data_type 0 0 false
                  (some "Invalid Data Type") job_id],
      direct_calls := dc, selenium_calls := sc }
  else
    let extracted := extractItems keyword soup.elements
    let cleaned :=
      if apply_cleaning ∧ extracted ≠ [] then
        pipeline_clean (create_default_pipeline data_type) extracted data_type
      else extracted
    { items := cleaned.map (fun c => ⟨data_type, c⟩),
      stats := [save_scraping_stats url data_type extracted.length cleaned.length
                  true none job_id],
      direct_calls := dc, selenium_calls := sc }

/-- `scrape_website`: URL validation (note the invalid-URL early return
leaves `success = True` and `error_message = None`, which is what the
`finally` block then records), the two-tier fetch, and the rest of the
pipeline. -/
def scrape_website (url data_type keyword : String) (apply_cleaning : Bool)
    (job_id : Option Nat) (env : ScrapeEnv) : ScrapeResult :=
  if ¬ validate_url url then
    { items := [⟨"error", "Invalid URL: " ++ url⟩],
      stats := [save_scraping_stats url data_type 0 0 true none job_id],
      direct_calls := 0, selenium_calls := 0 }
  else
    match env.direct with
    | .ok soup => scrapeWithSoup url data_type keyword apply_cleaning job_id soup 1 0
    | .error _ =>
      match env.selenium with
      | .ok soup => scrapeWithSoup url data_type keyword apply_cleaning job_id soup 1 1
      | .error e =>
        { items := [⟨"error", "Failed to scrape website: " ++ e⟩],
          stats := [save_scraping_stats url data_type 0 0 false (some e) job_id],
          direct_calls := 1, selenium_calls := 1 }

/-! ## Properties -/

theorem scrapeWithSoup_one_stats_row (url data_type keyword : String)
    (apply_cleaning : Bool) (job_id : Option Nat) (soup : Soup) (dc sc : Nat) :
    (scrapeWithSoup url data_type keyword apply_cleaning job_id soup dc sc).stats.length = 1 := by
  unfold scrapeWithSoup
  split
  · rfl
  split
  · rfl
  · rfl

theorem scrapeWithSoup_calls (url data_type keyword : String)
    (apply_cleaning : Bool) (job_id : Option Nat) (soup : Soup) (dc sc : Nat) :
    (scrapeWithSoup url data_type keyword apply_cleaning job_id soup dc sc).direct_calls = dc ∧
    (scrapeWithSoup url data_type keyword apply_cleaning job_id soup dc sc).selenium_calls = sc := by
  unfold scrapeWithSoup
  split
  · exact ⟨rfl, rfl⟩
  split
  · exact ⟨rfl, rfl⟩
  · exact ⟨rfl, rfl⟩

/-- C1: a run whose URL fails validation aborts before any network call
and returns the single error item — but the `RunStats` row it writes is
marked successful with no error message, because the invalid-URL early
return never updates `success`/`error_message` before the `finally`
block records them.  Evaluated at the failing input `url = "notaurl"`:
the row records `success = true` and `error_message = none`, where the
specification requires an unsuccessful row with the message. -/
theorem invalid_url_stats_row_marked_successful :
    scrape_website "notaurl" "Text" "" true none
        ⟨Except.error "net down", Except.error "net down"⟩ =
      { items := [⟨"error", "Invalid URL: notaurl"⟩],
        stats := [⟨none, "notaurl", "Text", 0, 0, true, none⟩],
        direct_calls := 0, selenium_calls := 0 } := by
  decide

/-- C2: every invocation of `scrape_website` — invalid URL, fetch
failure on both tiers, falsy document, invalid data kind, or the
success path — hands exactly one row to `save_scraping_stats`. -/
theorem scrape_website_exactly_one_stats_row (url data_type keyword : String)
    (apply_cleaning : Bool) (job_id : Option Nat) (env : ScrapeEnv) :
    (scrape_website url data_type keyword apply_cleaning job_id env).stats.length = 1 := by
  unfold scrape_website
  split
  · rfl
  · cases env.direct with
    | ok soup => exact scrapeWithSoup_one_stats_row url data_type keyword apply_cleaning job_id soup 1 0
    | error e =>
      cases env.selenium with
      | ok soup => exact scrapeWithSoup_one_stats_row url data_type keyword apply_cleaning job_id soup 1 1
      | error e2 => rfl

/-- C4 counterexample: the default Text pipeline applied to the claimed
input does not return `["hello & world"]` — the case-insensitive
de-duplication keeps the first occurrence verbatim and no step
lower-cases Text items. -/
theorem default_text_pipeline_not_lowercased :
    pipeline_clean (create_default_pipeline "Text")
      ["  Hello &amp; world  ", "Hello & world", "a", ""] "Text" ≠
      ["hello & world"] := by
  decide

/-- C4 (amended): the default Text pipeline applied to
`["  Hello &amp; world  ", "Hello & world", "a", ""]` returns exactly
`["Hello & world"]`: entity-decoded, whitespace-collapsed, short/empty
entries filtered, case-insensitive de-duplication keeping the first
occurrence in its original case. -/
theorem default_text_pipeline_example :
    pipeline_clean (create_default_pipeline "Text")
      ["  Hello &amp; world  ", "Hello & world", "a", ""] "Text" =
      ["Hello & world"] := by
  decide

/-- C5 counterexample: the default Links pipeline applied to the claimed
input does not return `["http://example.com/a"]` — `clean_url`
lower-cases only the authority, so the first list entry keeps its
upper-case path and survives de-duplication in that form. -/
theorem default_links_pipeline_not_lowercased :
    pipeline_clean (create_default_pipeline "Links")
      ["http://EXAMPLE.com/A/", "http://example.com/a", "not a url"] "Links" ≠
      ["http://example.com/a"] := by
  decide

/-- C5 (amended): the default Links pipeline applied to
`["http://EXAMPLE.com/A/", "http://example.com/a", "not a url"]`
returns exactly `["http://example.com/A"]`: authority case-folded,
trailing slash stripped, the invalid entry dropped, and the duplicate
collapsed onto the first occurrence, whose path keeps its case. -/
theorem default_links_pipeline_example :
    pipeline_clean (create_default_pipeline "Links")
      ["http://EXAMPLE.com/A/", "http://example.com/a", "not a url"] "Links" =
      ["http://example.com/A"] := by
  decide

/-- Whether a fetch tier outcome is a raised error. -/
def tierFailed : Except String Soup → Bool
  | .ok _ => false
  | .error _ => true

/-- The message a failed tier outcome carries. -/
def tierError : Except String Soup → String
  | .ok _ => ""
  | .error e => e

/-- C7: for a validated URL the direct tier runs exactly once, the
Selenium fallback runs exactly once when and only when the direct tier
raised, and when both tiers raised the run surfaces the single fetch
error item — no tier is ever retried. -/
theorem fetch_fallback_iff_direct_failure (url data_type keyword : String)
    (apply_cleaning : Bool) (job_id : Option Nat) (env : ScrapeEnv)
    (h : validate_url url = true) :
    (scrape_website url data_type keyword apply_cleaning job_id env).direct_calls = 1 ∧
    (scrape_website url data_type keyword apply_cleaning job_id env).selenium_calls =
      (if tierFailed env.direct then 1 else 0) ∧
    (tierFailed env.direct = true → tierFailed env.selenium = true →
      (scrape_website url data_type keyword apply_cleaning job_id env).items =
        [⟨"error", "Failed to scrape website: " ++ tierError env.selenium⟩]) := by
  unfold scrape_website
  rw [if_neg (by simp [h])]
  cases hd : env.direct with
  | ok soup =>
    refine ⟨(scrapeWithSoup_calls _ _ _ _ _ _ _ _).1, ?_, ?_⟩
    · rw [(scrapeWithSoup_calls url data_type keyword apply_cleaning job_id soup 1 0).2]
      simp [tierFailed]
    · intro hf
      simp [tierFailed] at hf
  | error e =>
    cases hs : env.selenium with
    | ok soup =>
      refine ⟨(scrapeWithSoup_calls _ _ _ _ _ _ _ _).1, ?_, ?_⟩
      · rw [(scrapeWithSoup_calls url data_type keyword apply_cleaning job_id soup 1 1).2]
        simp [tierFailed]
      · intro _ hf
        simp [tierFailed] at hf
    | error e2 => exact ⟨rfl, by simp [tierFailed], fun _ _ => by simp [tierError]⟩

/-- C7 witness: a concrete validated URL whose direct fetch and
Selenium fallback both raise; the run performed one direct attempt, one
fallback attempt, and returned the single fetch-error item. -/
theorem fetch_fallback_iff_direct_failure_witness :
    validate_url "http://example.com/page" = true ∧
    (scrape_website "http://example.com/page" "Text" "" true none
        ⟨Except.error "timeout", Except.error "driver crash"⟩).direct_calls = 1 ∧
    (scrape_website "http://example.com/page" "Text" "" true none
        ⟨Except.error "timeout", Except.error "driver crash"⟩).selenium_calls = 1 ∧
    (scrape_website "http://example.com/page" "Text" "" true none
        ⟨Except.error "timeout", Except.error "driver crash"⟩).items =
      [⟨"error", "Failed to scrape website: driver crash"⟩] := by
  have h := fetch_fallback_iff_direct_failure "http://example.com/page" "Text" "" true none
    ⟨Except.error "timeout", Except.error "driver crash"⟩ (by decide)
  exact ⟨by decide, h.1, h.2.1, h.2.2 (by decide) (by decide)⟩

set_option maxRecDepth 4000 in
set_option maxHeartbeats 1000000 in
/-- C3 counterexample: two downloads with byte-identical bodies but
different source URLs do not collapse to one cache entry — the
filename stem is the MD5 of the URL string, so the cache ends up with
two entries and two network downloads. -/
theorem byte_identical_downloads_distinct_entries :
    ((download_image "http://b.example/pic.jpg" (.ok "image/png" [137, 80, 78, 71])
        (download_image "http://a.example/pic.jpg" (.ok "image/png" [137, 80, 78, 71])
          ⟨[], 0, 0⟩).2).2.files.map (fun f => f.name)) =
      [imageFilename "http://a.example/pic.jpg", imageFilename "http://b.example/pic.jpg"] ∧
    imageFilename "http://a.example/pic.jpg" ≠ imageFilename "http://b.example/pic.jpg" ∧
    (download_image "http://b.example/pic.jpg" (.ok "image/png" [137, 80, 78, 71])
        (download_image "http://a.example/pic.jpg" (.ok "image/png" [137, 80, 78, 71])
          ⟨[], 0, 0⟩).2).2.downloads = 2 := by
  decide

/-- C3 (amended): the cache filename — MD5 of the URL string plus the
URL path's extension — is a deterministic function of the requested URL
alone: downloads of the same URL return the same local reference
whatever bytes or (image) content type the server answers with, while
byte-identical content under different URLs yields distinct entries. -/
theorem image_cache_ref_depends_only_on_url (u : String) (s : MediaState)
    (ct1 ct2 : String) (b1 b2 : List Nat)
    (h1 : strContains ct1 "image" = true) (h2 : strContains ct2 "image" = true) :
    (download_image u (.ok ct1 b1) s).1 = (download_image u (.ok ct2 b2) s).1 := by
  by_cases he : u = ""
  · simp [download_image, he]
  · by_cases hv : validate_url u = true
    · by_cases hc : s.files.any (fun f => f.name = imageFilename u) = true
      · simp [download_image, he, hv, hc]
      · simp [download_image, he, hv, hc, h1, h2]
    · simp [download_image, he, hv]

set_option maxRecDepth 4000 in
/-- C3 witness: the amended determinism at a concrete URL, two distinct
bodies and two distinct image content types. -/
theorem image_cache_ref_depends_only_on_url_witness :
    strContains "image/png" "image" = true ∧
    (download_image "http://a.example/pic.jpg" (.ok "image/png" [1, 2]) ⟨[], 0, 0⟩).1 =
      (download_image "http://a.example/pic.jpg" (.ok "image/gif" [3, 4, 5]) ⟨[], 0, 0⟩).1 :=
  ⟨by decide,
   image_cache_ref_depends_only_on_url "http://a.example/pic.jpg" ⟨[], 0, 0⟩
     "image/png" "image/gif" [1, 2] [3, 4, 5] (by decide) (by decide)⟩

theorem download_image_some (u : String) (resp : HttpResp) (s : MediaState)
    (r : String) (s' : MediaState)
    (h : download_image u resp s = (some r, s')) :
    r = "/static/images/" ++ imageFilename u ∧ u ≠ "" ∧ validate_url u = true := by
  by_cases he : u = ""
  · simp [download_image, he] at h
  · by_cases hv : validate_url u = true
    · refine ⟨?_, he, hv⟩
      by_cases hc : s.files.any (fun f => f.name = imageFilename u) = true
      · simp [download_image, he, hv, hc] at h
        exact h.1.symm
      · cases resp with
        | err => simp [download_image, he, hv, hc] at h
        | ok ct body =>
          by_cases hct : strContains ct "image" = true
          · simp [download_image, he, hv, hc, hct] at h
            exact h.1.symm
          · simp [download_image, he, hv, hc, hct] at h
    · simp [download_image, he, hv] at h

theorem download_video_some (u : String) (resp : HttpResp) (s : MediaState)
    (r : String) (s' : MediaState)
    (h : download_video u resp s = (some r, s')) :
    ((isEmbeddedVideo u = true ∧ r = u) ∨
      (isEmbeddedVideo u = false ∧ r = "/static/videos/" ++ videoFilename u)) ∧
    u ≠ "" ∧ validate_url u = true := by
  by_cases he : u = ""
  · simp [download_video, he] at h
  · by_cases hv : validate_url u = true
    · refine ⟨?_, he, hv⟩
      by_cases hemb : isEmbeddedVideo u = true
      · left
        refine ⟨hemb, ?_⟩
        simp [download_video, he, hv, hemb] at h
        exact h.1.symm
      · right
        refine ⟨by simpa using hemb, ?_⟩
        by_cases hc : s.files.any (fun f => f.name = videoFilename u) = true
        · simp [download_video, he, hv, hemb, hc] at h
          exact h.1.symm
        · cases resp with
          | err => simp [download_video, he, hv, hemb, hc] at h
          | ok ct body =>
            by_cases hct : strContains ct "video" = true
            · simp [download_video, he, hv, hemb, hc, hct] at h
              exact h.1.symm
            · simp [download_video, he, hv, hemb, hc, hct] at h
    · simp [download_video, he, hv] at h

/-- C6: once an acquisition of a media URL has succeeded, acquiring the
same URL again in any state where its cached file (still) exists
returns the very same local reference with the state untouched — no
network request, no new file, no eviction pass (first conjunct: images;
second: videos, where an embedded-platform URL is likewise returned
unchanged without any network activity). -/
theorem media_second_acquire_no_download :
    (∀ (u : String) (resp1 resp2 : HttpResp) (s : MediaState) (r : String)
       (s1 s2 : MediaState),
      download_image u resp1 s = (some r, s1) →
      s2.files.any (fun f => f.name = imageFilename u) = true →
      download_image u resp2 s2 = (some r, s2)) ∧
    (∀ (u : String) (resp1 resp2 : HttpResp) (s : MediaState) (r : String)
       (s1 s2 : MediaState),
      download_video u resp1 s = (some r, s1) →
      s2.files.any (fun f => f.name = videoFilename u) = true →
      download_video u resp2 s2 = (some r, s2)) := by
  constructor
  · intro u resp1 resp2 s r s1 s2 h1 h2
    obtain ⟨hr, hne, hval⟩ := download_image_some u resp1 s r s1 h1
    simp [download_image, hne, hval, h2, hr]
  · intro u resp1 resp2 s r s1 s2 h1 h2
    obtain ⟨hor, hne, hval⟩ := download_video_some u resp1 s r s1 h1
    rcases hor with ⟨hemb, hr⟩ | ⟨hemb, hr⟩
    · simp [download_video, hne, hval, hemb, hr]
    · simp [download_video, hne, hval, hemb, hr, h2]

set_option maxRecDepth 4000 in
/-- C6 witness: a state already holding the cached file for a concrete
image URL; acquiring it again (with the network even failing) returns
the cached reference and leaves the state — including the download
counter — unchanged. -/
theorem media_second_acquire_no_download_witness :
    download_image "http://a.example/pic.jpg" HttpResp.err
        ⟨[⟨imageFilename "http://a.example/pic.jpg", 4, 0⟩], 0, 1⟩ =
      (some ("/static/images/" ++ imageFilename "http://a.example/pic.jpg"),
       ⟨[⟨imageFilename "http://a.example/pic.jpg", 4, 0⟩], 0, 1⟩) :=
  media_second_acquire_no_download.1 "http://a.example/pic.jpg" HttpResp.err HttpResp.err
    ⟨[⟨imageFilename "http://a.example/pic.jpg", 4, 0⟩], 0, 1⟩
    ("/static/images/" ++ imageFilename "http://a.example/pic.jpg")
    ⟨[⟨imageFilename "http://a.example/pic.jpg", 4, 0⟩], 0, 1⟩
    ⟨[⟨imageFilename "http://a.example/pic.jpg", 4, 0⟩], 0, 1⟩
    (by decide) (by decide)
/-- The specification's well-formedness reading for link-like items:
parses into a scheme plus an authority. -/
def hasSchemeAndAuthority (s : String) : Bool :=
  match py_urlparse s with
  | none => false
  | some p => p.scheme ≠ "" ∧ p.netloc ≠ ""

/-- Count of non-whitespace characters, the quantity the claim states
the Text condition in. -/
def nonWsCharCount (s : String) : Nat :=
  (s.data.filter (fun c => !isPySpace c)).length

/-- C8 counterexample: the item `"a b"` is kept by the Text validation
although it has only 2 non-whitespace characters (the source compares
the length of the trimmed string, internal whitespace included), and
the item `"/x"` is dropped by the Links validation although it begins
with `/` (only Images and Videos have the leading-slash escape). -/
theorem validate_data_claim_cex :
    ¬ ((validate_data "a b" "Text" = true ↔ 3 ≤ nonWsCharCount (pyStrip "a b")) ∧
       (validate_data "/x" "Links" = true ↔
         (pyStartsWith "/x" "/" = true ∨ hasSchemeAndAuthority "/x" = true))) := by
  decide

/-- C8 (amended): the validate step keeps a Text item iff its trimmed
form is at least 3 characters long (internal whitespace counted); keeps
a Links item iff it parses into scheme plus authority (a leading `/`
does not help); keeps an Images or Videos item iff it begins with `/`
or parses into scheme plus authority. -/
theorem validate_data_characterization (d : String) :
    (validate_data d "Text" = true ↔ 3 ≤ (pyStrip d).length) ∧
    (validate_data d "Links" = true ↔ hasSchemeAndAuthority d = true) ∧
    (validate_data d "Images" = true ↔
      (pyStartsWith d "/" = true ∨ hasSchemeAndAuthority d = true)) ∧
    (validate_data d "Videos" = true ↔
      (pyStartsWith d "/" = true ∨ hasSchemeAndAuthority d = true)) := by
  by_cases he : d = ""
  · subst he; decide
  · by_cases hs : pyStartsWith d "/" = true <;>
      simp [validate_data, hasSchemeAndAuthority, he, hs]

/-- C9 counterexample: with default options `clean_url` removes every
trailing slash of the path, not exactly one — `"http://example.com/a//"`
comes back as `"http://example.com/a"`, not `"http://example.com/a/"`. -/
theorem clean_url_trailing_slashes_cex :
    clean_url "http://example.com/a//" {} = "http://example.com/a" ∧
    clean_url "http://example.com/a//" {} ≠ "http://example.com/a/" := by
  decide

/-- C9 (amended): with default options `clean_url` rebuilds a parsed
URL as its scheme, the lower-cased authority, the path with all
trailing slashes removed (only when the path ends in a slash and is
longer than the root `"/"`, which stays intact; the path keeps its
case), and the query; the fragment is dropped. -/
theorem clean_url_default_components (url : String) (p : UrlParseResult)
    (hne : url ≠ "") (hp : py_urlparse url = some p) :
    clean_url url {} =
      p.scheme ++ "://" ++ pyLower p.netloc ++
        (if pyEndsWith p.path "/" = true ∧ 1 < p.path.length
         then rstripSlash p.path else p.path) ++
        (if p.query ≠ "" then "?" ++ p.query else "") := by
  simp [clean_url, hne, hp]

/-- C9 witness: the amended description evaluated on a concrete URL
with upper-case scheme, authority and path, two trailing slashes, a
query and a fragment. -/
theorem clean_url_default_components_witness :
    py_urlparse "HTTP://EXAMPLE.com/Path//?q=1#frag" =
      some ⟨"http", "EXAMPLE.com", "/Path//", "", "q=1", "frag"⟩ ∧
    clean_url "HTTP://EXAMPLE.com/Path//?q=1#frag" {} =
      "http" ++ "://" ++ pyLower "EXAMPLE.com" ++
        (if pyEndsWith "/Path//" "/" = true ∧ 1 < ("/Path//" : String).length
         then rstripSlash "/Path//" else "/Path//") ++
        (if ("q=1" : String) ≠ "" then "?" ++ "q=1" else "") :=
  ⟨by decide,
   clean_url_default_components "HTTP://EXAMPLE.com/Path//?q=1#frag"
     ⟨"http", "EXAMPLE.com", "/Path//", "", "q=1", "frag"⟩ (by decide) (by decide)⟩

/-- C10 counterexample: `"foo/"` is non-empty and parses with empty
scheme and empty authority, but `clean_url` returns `"://foo"` — the
trailing-slash removal applies — and not `"://" ++ "foo/"`. -/
theorem schemeless_clean_url_cex :
    py_urlparse "foo/" = some ⟨"", "", "foo/", "", "", ""⟩ ∧
    clean_url "foo/" {} = "://foo" ∧
    clean_url "foo/" {} ≠ "://" ++ "foo/" := by
  decide

theorem py_urlsplit_colon_head (t : String) (l : List Char) (hl : t.data = ':' :: l) :
    ∃ pa q f, py_urlsplit t = some ⟨"", "", pa, "", q, f⟩ := by
  have hsan : urlSanitize t = ':' :: l.filter (fun c => !isUnsafeUrlByte c) := by
    simp [urlSanitize, hl, List.dropWhile_cons,
          show isC0OrSpace ':' = false from by decide,
          show isUnsafeUrlByte ':' = false from by decide]
  have hscheme : splitScheme (':' :: l.filter (fun c => !isUnsafeUrlByte c)) =
      ([], ':' :: l.filter (fun c => !isUnsafeUrlByte c)) := by
    simp [splitScheme, List.findIdx?_cons]
  refine
    ⟨⟨(splitOnFirstD '?'
        (splitOnFirstD '#' (':' :: l.filter (fun c => !isUnsafeUrlByte c))).1).1⟩,
     ⟨(splitOnFirstD '?'
        (splitOnFirstD '#' (':' :: l.filter (fun c => !isUnsafeUrlByte c))).1).2⟩,
     ⟨(splitOnFirstD '#' (':' :: l.filter (fun c => !isUnsafeUrlByte c))).2⟩, ?_⟩
  simp [py_urlsplit, hsan, hscheme, List.take_succ_cons,
        show ¬((':' : Char) = '/') from by decide,
        show (⟨[]⟩ : String) = "" from rfl]

theorem py_urlparse_colon_head (t : String) (l : List Char) (hl : t.data = ':' :: l) :
    ∃ r, py_urlparse t = some r ∧ r.scheme = "" ∧ r.netloc = "" := by
  obtain ⟨pa, q, f, hs⟩ := py_urlsplit_colon_head t l hl
  simp only [py_urlparse, hs]
  split
  · exact ⟨_, rfl, rfl, rfl⟩
  · exact ⟨_, rfl, rfl, rfl⟩

theorem validate_links_colon_head (t : String) (h : t.data.head? = some ':') :
    validate_data t "Links" = false := by
  obtain ⟨l, hl⟩ : ∃ l, t.data = ':' :: l := by
    cases ht : t.data with
    | nil => rw [ht] at h; simp at h
    | cons a as =>
      rw [ht] at h
      simp at h
      exact ⟨as, by rw [h]⟩
  obtain ⟨r, hr, hsch, _⟩ := py_urlparse_colon_head t l hl
  have hne : t ≠ "" := by
    intro he
    rw [he] at hl
    simp at hl
  simp [validate_data, hne, hr, hsch]

/-- C10 (amended): every non-empty input that parses with empty scheme
and empty authority is rewritten by default-option `clean_url` into
`"://"` followed by the parsed path after trailing-slash removal and
the query part — a malformed URL beginning with `"://"` — which the
validate step for Links then always drops. -/
theorem schemeless_clean_url_malformed (s : String) (p : UrlParseResult)
    (hne : s ≠ "") (hp : py_urlparse s = some p)
    (hs : p.scheme = "") (hn : p.netloc = "") :
    clean_url s {} =
      "://" ++ (if pyEndsWith p.path "/" = true ∧ 1 < p.path.length
                then rstripSlash p.path else p.path) ++
        (if p.query ≠ "" then "?" ++ p.query else "") ∧
    validate_data (clean_url s {}) "Links" = false := by
  have e0 : pyLower "" = "" := rfl
  have hval : clean_url s {} =
      "://" ++ (if pyEndsWith p.path "/" = true ∧ 1 < p.path.length
                then rstripSlash p.path else p.path) ++
        (if p.query ≠ "" then "?" ++ p.query else "") := by
    simp [clean_url, hne, hp, hs, hn, e0]
  refine ⟨hval, validate_links_colon_head _ ?_⟩
  rw [hval]
  simp [String.data_append]

/-- C10 witness: the amended rewrite evaluated on the concrete
schemeless phrase `"not a url"`, which `clean_url` turns into
`"://not a url"` and the Links validation then rejects. -/
theorem schemeless_clean_url_malformed_witness :
    py_urlparse "not a url" = some ⟨"", "", "not a url", "", "", ""⟩ ∧
    clean_url "not a url" {} =
      "://" ++ (if pyEndsWith "not a url" "/" = true ∧ 1 < ("not a url" : String).length
                then rstripSlash "not a url" else "not a url") ++
        (if ("" : String) ≠ "" then "?" ++ "" else "") ∧
    validate_data (clean_url "not a url" {}) "Links" = false := by
  have h := schemeless_clean_url_malformed "not a url" ⟨"", "", "not a url", "", "", ""⟩
    (by decide) (by decide) (by decide) (by decide)
  exact ⟨by decide, h.1, h.2⟩

end ScrapeMaster
